import Mathlib

/-!
Shallow embedding of the db_magic repository (src/db_magic/magic.py and
src/db_magic/auth.py): the template-substitution micro-language, the
configuration resolution, the connection lifecycle, and the command facade
binding behaviour.  External collaborators (the identity provider, the SQL
driver, pandas rendering, the environment) are modelled as explicit oracle
parameters; display/printing side effects carry no state and are omitted.
-/

namespace DbMagic

/-- The left curly brace character, written numerically. -/
def lbrace : Char := Char.ofNat 123

/-- The right curly brace character, written numerically. -/
def rbrace : Char := Char.ofNat 125

/-- The single-quote character, written numerically. -/
def squote : Char := Char.ofNat 39

/-- A tabular result: `pd.DataFrame(results, columns=columns)` in
`auth.py` — an ordered column list and ordered rows (cell values abstracted
as strings; no claim inspects individual cells). -/
structure Df where
  cols : List String
  rows : List (List String)
deriving DecidableEq, Repr

/-- `pd.DataFrame()` — the empty tabular result bound on a failing call. -/
def Df.empty : Df := { cols := [], rows := [] }

/-- A Python value living in the interactive namespace, as far as the code
distinguishes values: `isinstance(val, str)` selects the first constructor;
every other object is only ever observed through `str(val)`, so non-string
non-DataFrame objects are abstracted by that rendering (`other rep`), and
DataFrames (which the facade writes into the namespace) are kept as data. -/
inductive PyObj where
  | str (s : String)
  | df (d : Df)
  | other (rep : String)
deriving DecidableEq

/-- `isinstance(val, str)`. -/
def isTextual : PyObj → Bool
  | .str _ => true
  | _ => false

/-- Python `str(val)`: the identity on strings, the external pandas
rendering `dfR` on DataFrames, and the carried representation otherwise. -/
def pyStr (dfR : Df → String) : PyObj → String
  | .str s => s
  | .df d => dfR d
  | .other rep => rep

/-- `val.replace("'", "''")` from `magic.py` line 91: every embedded single
quote is doubled. -/
def escSQuote (s : String) : String :=
  String.mk (s.data.flatMap fun c => if c = squote then [squote, squote] else [c])

/-- The replacement text computed by `replace` in `_substitute_variables`
(magic.py lines 84-93) for a value found in the namespace: strings are
single-quoted with embedded quotes doubled, anything else is `str(val)`. -/
def renderVal (dfR : Df → String) : PyObj → String
  | .str s => String.mk (squote :: (escSQuote s).data ++ [squote])
  | .df d => dfR d
  | .other rep => rep

/-- The character class of the regex `\w` (restricted to ASCII; all inputs
considered are ASCII). -/
def isWordChar (c : Char) : Bool := c.isAlphanum || c = '_'

/-- The caller's live namespace `self.shell.user_ns`, read by substitution
and written by the commands. -/
abbrev Namespace := String → Option PyObj

/-- The scan of `re.sub(r'\{(\w+)\}', replace, query)` over the character
list of the query, written with a fuel argument so that the recursion is
structural (the fuel is instantiated with the length of the input, which
always suffices — see `substFuel_fuel_irrel`).  At each position: a match
requires a left brace, a nonempty maximal run of word characters, and a
right brace (the regex can match nothing else: any shorter run of `\w+` is
followed by a word character, not the closing brace, so no backtracking
succeeds).  On a match of a bound name the rendered value is emitted and
the scan resumes after the match (substituted text is never re-scanned); on
a match of an unbound name the match text passes through unchanged
(`return match.group(0)`); on a non-match the scan advances one position,
and positions inside a run of word characters can never start a match. -/
def substFuel (ns : Namespace) (dfR : Df → String) : Nat → List Char → List Char
  | 0, l => l
  | _ + 1, [] => []
  | fuel + 1, c :: cs =>
    if c = lbrace then
      let w := cs.takeWhile isWordChar
      if w = [] then c :: substFuel ns dfR fuel cs
      else
        match cs.dropWhile isWordChar with
        | [] => c :: w
        | r :: rest2 =>
          if r = rbrace then
            match ns (String.mk w) with
            | some v => (renderVal dfR v).data ++ substFuel ns dfR fuel rest2
            | none => c :: (w ++ r :: substFuel ns dfR fuel rest2)
          else c :: (w ++ substFuel ns dfR fuel (r :: rest2))
    else c :: substFuel ns dfR fuel cs

/-- The character-list form of `_substitute_variables`. -/
def substChars (ns : Namespace) (dfR : Df → String) (l : List Char) : List Char :=
  substFuel ns dfR l.length l

/-- `_substitute_variables` (magic.py lines 72-97). -/
def substitute_variables (ns : Namespace) (dfR : Df → String) (query : String) : String :=
  String.mk (substChars ns dfR query.data)

/-- The names of the placeholders the scan actually matches, in scan
order: the same recursion as `substFuel`, recording the matched name at
each match. -/
def matchedFuel : Nat → List Char → List String
  | 0, _ => []
  | _ + 1, [] => []
  | fuel + 1, c :: cs =>
    if c = lbrace then
      let w := cs.takeWhile isWordChar
      if w = [] then matchedFuel fuel cs
      else
        match cs.dropWhile isWordChar with
        | [] => []
        | r :: rest2 =>
          if r = rbrace then String.mk w :: matchedFuel fuel rest2
          else matchedFuel fuel (r :: rest2)
    else matchedFuel fuel cs

/-- The placeholder names the scan of a query actually matches. -/
def matchedNames (l : List Char) : List String :=
  matchedFuel l.length l

/-! ### Python string primitives, over character lists (the corresponding
Lean `String` operations are bytewise and do not reduce in the kernel, and
their semantics differ in details such as the whitespace set). -/

/-- The whitespace characters stripped by Python `str.strip()` (the ASCII
ones; all inputs considered are ASCII). -/
def isPySpace (c : Char) : Bool :=
  c = ' ' || c = '\t' || c = '\n' || c = '\r' || c = '\x0b' || c = '\x0c'

/-- Python `s.strip()`. -/
def pyStrip (s : String) : String :=
  String.mk (((s.data.dropWhile isPySpace).reverse.dropWhile isPySpace).reverse)

/-- Python `c in s` for a single character. -/
def pyContains (s : String) (c : Char) : Bool :=
  s.data.contains c

/-- Python `s.startswith(pre)`. -/
def pyStartsWith (s pre : String) : Bool :=
  pre.data.isPrefixOf s.data

/-- Python `s.replace(pat, rep)`: all non-overlapping occurrences, left to
right, written with a fuel argument (instantiated with the input length,
which suffices for the nonempty patterns used) so the recursion is
structural. -/
def replChars (pat rep : List Char) : Nat → List Char → List Char
  | 0, l => l
  | _ + 1, [] => []
  | fuel + 1, c :: cs =>
    if pat.isPrefixOf (c :: cs) then
      rep ++ replChars pat rep fuel ((c :: cs).drop pat.length)
    else c :: replChars pat rep fuel cs

/-- Python `s.replace(pat, rep)`. -/
def pyReplace (s pat rep : String) : String :=
  String.mk (replChars pat.data rep.data s.data.length s.data)

/-! ### Line-form argument handling (`sql_line`, magic.py lines 170-177) -/

/-- The text before the first equals sign of the line,
`line.split('=', 1)[0]`. -/
def beforeEq (line : String) : String :=
  String.mk (line.data.takeWhile (fun c => c ≠ '='))

/-- The text after the first equals sign of the line,
`line.split('=', 1)[1]`. -/
def afterEq (line : String) : String :=
  String.mk ((line.data.dropWhile (fun c => c ≠ '=')).drop 1)

/-- The target-name / query split performed by `sql_line` (magic.py lines
171-177): if the line contains an equals sign and its stripped form does
not start with `SELECT`, split at the first equals sign and strip both
parts; otherwise the default name `_df` with the stripped whole line. -/
def parse_sql_line (line : String) : String × String :=
  if pyContains line '=' && !(pyStartsWith (pyStrip line) "SELECT") then
    (pyStrip (beforeEq line), pyStrip (afterEq line))
  else ("_df", pyStrip line)

/-- A nonempty run of word characters, the `name` token of the spec's
`[name =] query` form. -/
def isIdent (s : String) : Bool :=
  !s.data.isEmpty && s.data.all isWordChar

/-- Modelled from the spec for comparison with `parse_sql_line` (this is
the claim side of the refinement, not a source translation): a line-form
command accepting `[name =] query` on one line — the explicit name is taken
exactly when the line has a `name = query` prefix, i.e. when the text
before the first equals sign is an identifier; otherwise the default name
with the whole (stripped) line as the query. -/
def spec_parse_sql_line (line : String) : String × String :=
  if pyContains line '=' && isIdent (pyStrip (beforeEq line)) then
    (pyStrip (beforeEq line), pyStrip (afterEq line))
  else ("_df", pyStrip line)

/-! ### Configuration resolution (`_load_databricks_config`, magic.py
lines 32-52) -/

/-- `os.getenv(key, default)` over an environment oracle (`none` means the
variable is unset; a set-but-empty variable is `some ""`). -/
def getenvD (env : String → Option String) (key dflt : String) : String :=
  (env key).getD dflt

/-- Python `dict.update`: values of existing keys are replaced, new keys
are appended in order (keys of both lists are assumed unique, as they come
from Python dicts). -/
def dictUpdate (base upd : List (String × String)) : List (String × String) :=
  base.map (fun kv => (kv.1, ((upd.lookup kv.1).getD kv.2))) ++
    upd.filter (fun kv => !(base.any (fun b => b.1 == kv.1)))

/-- The state of the config file on disk: `none` if it does not exist,
`some none` if it exists but is unreadable or malformed JSON (the load
prints the error and keeps the config as it was), `some (some entries)` if
it parses to a JSON object. -/
abbrev ConfigFile := Option (Option (List (String × String)))

/-- The environment-resolved hostname,
`os.getenv('DATABRICKS_HOST', os.getenv('DATABRICKS_SERVER_HOSTNAME', ''))`. -/
def envHostname (env : String → Option String) : String :=
  getenvD env "DATABRICKS_HOST" (getenvD env "DATABRICKS_SERVER_HOSTNAME" "")

/-- The environment-resolved warehouse path,
`os.getenv('DATABRICKS_HTTP_PATH', '')`. -/
def envPath (env : String → Option String) : String :=
  getenvD env "DATABRICKS_HTTP_PATH" ""

/-- `_load_databricks_config` (magic.py lines 32-52): environment
variables are read first (`DATABRICKS_HOST` with fallback
`DATABRICKS_SERVER_HOSTNAME`, and `DATABRICKS_HTTP_PATH`); if not all of
the resulting values are truthy (nonempty), the config file is consulted
and, when it parses, `config.update(file_config)` merges it in. -/
def load_databricks_config (env : String → Option String) (file : ConfigFile) :
    List (String × String) :=
  let base : List (String × String) :=
    [("server_hostname", envHostname env), ("http_path", envPath env)]
  if base.all (fun kv => !kv.2.isEmpty) then base
  else
    match file with
    | none => base
    | some none => base
    | some (some entries) => dictUpdate base entries

/-- Modelled from the spec for comparison with `load_databricks_config`
(this is the claim side of the refinement, not a source translation):
environment variables take priority, and the config file is consulted only
for fields not already resolved from the environment, so a field with a
nonempty environment value keeps it. -/
def spec_resolve_config (env : String → Option String) (file : ConfigFile) :
    List (String × String) :=
  let entries := match file with
    | some (some es) => es
    | _ => []
  [("server_hostname",
      if (envHostname env).isEmpty then ((entries.lookup "server_hostname").getD "")
      else envHostname env),
   ("http_path",
      if (envPath env).isEmpty then ((entries.lookup "http_path").getD "")
      else envPath env)]

/-! ### Connection manager (`auth.py`) -/

/-- The exceptions the connection manager raises, by role: `configError`
is the `ValueError` for missing configuration, `providerError` is an
exception escaping an external collaborator (identity provider, SQL
driver), `queryError` is the wrapped `Exception` re-raised by
`execute_query`. -/
inductive Exc where
  | configError (msg : String)
  | providerError (msg : String)
  | queryError (msg : String)
deriving DecidableEq

/-- The mutable state of a `DatabricksAuth` instance: the two endpoint
fields (Python falsy values are `none` or `some ""`), the cached
WorkspaceClient (Session) and the cached SQL connection (Execution
Channel), both abstracted by numeric handles issued by the oracle. -/
structure AuthState where
  server_hostname : Option String
  http_path : Option String
  workspace_client : Option Nat
  sql_connection : Option Nat
deriving DecidableEq

/-- Python truthiness of an optional string: falsy iff absent or empty. -/
def optFalsy : Option String → Bool
  | none => true
  | some s => s.isEmpty

/-- Python `a or b` for an optional-string `a`. -/
def pyOr (a : Option String) (b : Option String) : Option String :=
  match a with
  | none => b
  | some s => if s.isEmpty then b else some s

/-- `DatabricksAuth.__init__` (auth.py lines 22-33) called with string
arguments. -/
def mkAuth (env : String → Option String) (h p : String) : AuthState :=
  { server_hostname := pyOr (some h) (env "DATABRICKS_HOST")
  , http_path := pyOr (some p) (env "DATABRICKS_HTTP_PATH")
  , workspace_client := none
  , sql_connection := none }

/-- The external collaborators of the connection manager, as a behaviour
oracle: the two WorkspaceClient construction flows (external-browser and
default), the liveness probe of a cached SQL connection (the
`SELECT 1` round trip; `false` abstracts any exception), SQL connection
creation, the identity check `current_user.me()`, and the submit-and-fetch
of a query on a connection (columns from `cursor.description`, all rows
from `fetchall`; `Except.error` abstracts any exception in that block). -/
structure ExtEnv where
  browserAuth : String → Except String Nat
  defaultAuth : String → Except String Nat
  probe : Nat → Bool
  sqlConnect : String → String → Except String Nat
  meCheck : Nat → Except String String
  runQuery : Nat → String → Except String (List String × List (List String))

/-- The message of the `ValueError` raised when the hostname is missing
(auth.py lines 39-42). -/
def hostNotProvidedMsg : String :=
  "Databricks hostname not provided. Set DATABRICKS_HOST environment variable or pass server_hostname parameter."

/-- The message of the `ValueError` raised when the HTTP path is missing
(auth.py lines 101-105). -/
def pathNotProvidedMsg : String :=
  "Databricks HTTP path not provided. Set DATABRICKS_HTTP_PATH environment variable or pass http_path parameter."

/-- `_get_workspace_client` (auth.py lines 35-55): return the cached
client, else require a truthy hostname, try the external-browser flow,
and on any failure from it fall back to the default flow, whose failure
propagates.  A raising path performs no state mutation, so errors carry
the input state. -/
def get_workspace_client (env : ExtEnv) (s : AuthState) :
    Except (Exc × AuthState) (Nat × AuthState) :=
  match s.workspace_client with
  | some c => .ok (c, s)
  | none =>
    if optFalsy s.server_hostname then .error (.configError hostNotProvidedMsg, s)
    else
      let host := s.server_hostname.getD ""
      match env.browserAuth host with
      | .ok c => .ok (c, { s with workspace_client := some c })
      | .error _ =>
        match env.defaultAuth host with
        | .ok c => .ok (c, { s with workspace_client := some c })
        | .error m => .error (.providerError m, s)

/-- `authenticate` (auth.py lines 57-68) just returns
`_get_workspace_client()`. -/
def authenticate (env : ExtEnv) (s : AuthState) :
    Except (Exc × AuthState) (Nat × AuthState) :=
  get_workspace_client env s

/-- `test_connection` (auth.py lines 70-80): authenticate and run the
identity check inside one `try`; any exception is logged and `False` is
returned; the operation is total (it never raises). -/
def test_connection (env : ExtEnv) (s : AuthState) : Bool × AuthState :=
  match get_workspace_client env s with
  | .error (_, s1) => (false, s1)
  | .ok (c, s1) =>
    match env.meCheck c with
    | .ok _ => (true, s1)
    | .error _ => (false, s1)

/-- `connect` (auth.py lines 82-117): if a SQL connection is cached, probe
it and return it on probe success, discarding it on probe failure; then
require a truthy HTTP path, ensure the workspace client, and create a
fresh SQL connection over the hostname with `https://` stripped.  The
probe-failure discard (`self._sql_connection = None`) happens before any
later raise, so errors carry the post-discard state. -/
def connect (env : ExtEnv) (s : AuthState) :
    Except (Exc × AuthState) (Nat × AuthState) :=
  let step1 : AuthState ⊕ (Nat × AuthState) :=
    match s.sql_connection with
    | some conn =>
      if env.probe conn then .inr (conn, s)
      else .inl { s with sql_connection := none }
    | none => .inl s
  match step1 with
  | .inr res => .ok res
  | .inl s0 =>
    if optFalsy s0.http_path then .error (.configError pathNotProvidedMsg, s0)
    else
      match get_workspace_client env s0 with
      | .error es => .error es
      | .ok (_, s1) =>
        match s1.server_hostname with
        | none => .error (.providerError "AttributeError", s1)
        | some h =>
          match env.sqlConnect (pyReplace h "https://" "") (s1.http_path.getD "") with
          | .error m => .error (.providerError m, s1)
          | .ok conn => .ok (conn, { s1 with sql_connection := some conn })

/-- `execute_query` (auth.py lines 119-148): obtain a connection via
`connect` (whose failure propagates unwrapped), then submit and fetch; any
exception in that block is re-raised as
`Exception(f"Query execution failed: {e}")`, and on success the columns
and rows are packaged into a DataFrame. -/
def execute_query (env : ExtEnv) (s : AuthState) (query : String) :
    Except (Exc × AuthState) (Df × AuthState) :=
  match connect env s with
  | .error es => .error es
  | .ok (conn, s1) =>
    match env.runQuery conn query with
    | .ok res => .ok ({ cols := res.1, rows := res.2 }, s1)
    | .error m => .error (.queryError ("Query execution failed: " ++ m), s1)

/-! ### Command facade (`magic.py`) -/

/-- The state of a `DatabricksMagics` instance: the lazily created
`DatabricksAuth` (`self._auth`) and the loaded configuration dict
(`self._config`). -/
structure MagicState where
  auth : Option AuthState
  config : List (String × String)
deriving DecidableEq

/-- The message of the `ValueError` raised by `_get_auth` when
configuration is missing (magic.py lines 61-66). -/
def configNotFoundMsg : String :=
  "Databricks configuration not found. Set environment variables:\nexport DATABRICKS_HOST=\x27https://your-workspace.cloud.databricks.com\x27\nexport DATABRICKS_HTTP_PATH=\x27/sql/1.0/warehouses/your-warehouse-id\x27\nOr create ~/.databricks/config.json with these values."

/-- `_get_auth` (magic.py lines 54-70): return the cached auth, else read
the two config fields, raise `ValueError` if either is falsy, and
construct and cache a `DatabricksAuth`. -/
def get_auth (env : String → Option String) (ms : MagicState) :
    Except Exc (AuthState × MagicState) :=
  match ms.auth with
  | some a => .ok (a, ms)
  | none =>
    let h := ms.config.lookup "server_hostname"
    let p := ms.config.lookup "http_path"
    if optFalsy h || optFalsy p then .error (.configError configNotFoundMsg)
    else
      let a := mkAuth env (h.getD "") (p.getD "")
      .ok (a, { ms with auth := some a })

/-- The `sql` cell magic (magic.py lines 105-154), after the declarative
argument parsing has produced the target name: strip the cell, substitute
placeholders, then inside the `try` obtain the auth and execute; on
success bind the DataFrame to the target name, on any exception render the
error and bind a fresh empty DataFrame, so the name is written on both
paths.  Mutations of the shared auth object persist across a raise, hence
the error state is kept.  Display and timing are outside the model. -/
def sql_cell (xenv : ExtEnv) (env : String → Option String) (dfR : Df → String)
    (ms : MagicState) (ns : Namespace) (varName : String) (cell : String) :
    MagicState × Namespace :=
  let query := substitute_variables ns dfR (pyStrip cell)
  match get_auth env ms with
  | .error _ => (ms, Function.update ns varName (some (.df Df.empty)))
  | .ok (a, ms1) =>
    match execute_query xenv a query with
    | .ok (d, a1) =>
      ({ ms1 with auth := some a1 }, Function.update ns varName (some (.df d)))
    | .error (_, a1) =>
      ({ ms1 with auth := some a1 }, Function.update ns varName (some (.df Df.empty)))

/-- The `sql_line` line magic (magic.py lines 157-201): split the line
into target name and query, substitute placeholders, then the same
execute-and-bind sequence as the cell magic. -/
def sql_line_cmd (xenv : ExtEnv) (env : String → Option String) (dfR : Df → String)
    (ms : MagicState) (ns : Namespace) (line : String) :
    MagicState × Namespace :=
  let parsed := parse_sql_line line
  let query := substitute_variables ns dfR parsed.2
  match get_auth env ms with
  | .error _ => (ms, Function.update ns parsed.1 (some (.df Df.empty)))
  | .ok (a, ms1) =>
    match execute_query xenv a query with
    | .ok (d, a1) =>
      ({ ms1 with auth := some a1 }, Function.update ns parsed.1 (some (.df d)))
    | .error (_, a1) =>
      ({ ms1 with auth := some a1 }, Function.update ns parsed.1 (some (.df Df.empty)))

/-- The literal placeholder text for a name, as it appears in a query. -/
def placeholderStr (name : String) : String :=
  String.mk (lbrace :: name.data ++ [rbrace])

/-! ### Concrete fixtures used to instantiate the theorems -/

/-- A pandas rendering oracle for concrete instantiations. -/
def dfRW : Df → String := fun _ => "DataFrame"

/-- An empty environment. -/
def envNone : String → Option String := fun _ => none

/-- An empty namespace. -/
def nsNone : Namespace := fun _ => none

/-- A namespace binding `name` to the textual value from the spec's
quote-doubling example. -/
def nsOBrien : Namespace :=
  fun n => if n = "name" then some (.str "O\x27Brien") else none

/-- A namespace binding `uid` to a non-textual value rendered `7`. -/
def nsUid : Namespace :=
  fun n => if n = "uid" then some (.other "7") else none

/-- An environment defining only the host variable. -/
def envHostOnly : String → Option String :=
  fun k => if k = "DATABRICKS_HOST" then some "envhost" else none

/-- A config file defining both fields, with values distinct from the
environment's. -/
def fileBoth : ConfigFile :=
  some (some [("server_hostname", "filehost"), ("http_path", "filepath")])

/-- A fully configured auth state with a cached SQL connection handle. -/
def authCached : AuthState :=
  { server_hostname := some "h", http_path := some "p"
  , workspace_client := none, sql_connection := some 5 }

/-- An auth state with nothing configured and nothing cached. -/
def authUnconfigured : AuthState :=
  { server_hostname := none, http_path := none
  , workspace_client := none, sql_connection := none }

/-- An oracle on which every external operation succeeds. -/
def extOk : ExtEnv :=
  { browserAuth := fun _ => .ok 1, defaultAuth := fun _ => .ok 1
  , probe := fun _ => true, sqlConnect := fun _ _ => .ok 7
  , meCheck := fun _ => .ok "user"
  , runQuery := fun _ _ => .ok (["c"], [["1"]]) }

/-- An oracle on which query submission fails with message `boom` and
everything else succeeds. -/
def extBoom : ExtEnv :=
  { browserAuth := fun _ => .ok 1, defaultAuth := fun _ => .ok 1
  , probe := fun _ => true, sqlConnect := fun _ _ => .ok 7
  , meCheck := fun _ => .ok "user"
  , runQuery := fun _ _ => .error "boom" }

/-- A facade state whose configuration is empty, so `_get_auth` raises. -/
def msNoConfig : MagicState := { auth := none, config := [] }

/-! ### Helper lemmas -/

theorem dropWhile_length_le (p : Char → Bool) (l : List Char) :
    (l.dropWhile p).length ≤ l.length := by
  induction l with
  | nil => simp [List.dropWhile]
  | cons a t ih =>
    simp only [List.dropWhile]
    cases p a
    · simp
    · simp
      omega

/-- Any fuel at least the length of the input gives the same scan result. -/
theorem substFuel_fuel_irrel (ns : Namespace) (dfR : Df → String) :
    ∀ f1 f2 : Nat, ∀ l : List Char, l.length ≤ f1 → l.length ≤ f2 →
      substFuel ns dfR f1 l = substFuel ns dfR f2 l := by
  intro f1
  induction f1 with
  | zero =>
    intro f2 l h1 _
    have hl : l = [] := List.length_eq_zero.mp (Nat.le_zero.mp h1)
    subst hl
    cases f2 <;> rfl
  | succ a ih =>
    intro f2 l h1 h2
    cases f2 with
    | zero =>
      have hl : l = [] := List.length_eq_zero.mp (Nat.le_zero.mp h2)
      subst hl
      rfl
    | succ b =>
      cases l with
      | nil => rfl
      | cons c cs =>
        simp only [List.length_cons, Nat.succ_le_succ_iff] at h1 h2
        simp only [substFuel]
        have hdw : (cs.dropWhile isWordChar).length ≤ cs.length :=
          dropWhile_length_le isWordChar cs
        by_cases hc : c = lbrace
        · simp only [if_pos hc]
          by_cases hw : cs.takeWhile isWordChar = []
          · simp only [if_pos hw, ih b cs h1 h2]
          · simp only [if_neg hw]
            match hdrop : cs.dropWhile isWordChar with
            | [] => rfl
            | r :: rest2 =>
              have hlen2 : rest2.length + 1 ≤ cs.length := by
                rw [hdrop] at hdw
                simpa using hdw
              by_cases hr : r = rbrace
              · simp only [if_pos hr]
                cases ns (String.mk (cs.takeWhile isWordChar)) with
                | some v => simp only [ih b rest2 (by omega) (by omega)]
                | none => simp only [ih b rest2 (by omega) (by omega)]
              · simp only [if_neg hr]
                have heq := ih b (r :: rest2) (by simp; omega) (by simp; omega)
                rw [heq]
        · simp only [if_neg hc, ih b cs h1 h2]

/-- A position holding anything but a left brace can never start a match:
the scan copies the character and moves on. -/
theorem substChars_cons_of_ne (ns : Namespace) (dfR : Df → String)
    (c : Char) (cs : List Char) (hc : c ≠ lbrace) :
    substChars ns dfR (c :: cs) = c :: substChars ns dfR cs := by
  simp only [substChars, List.length_cons, substFuel, if_neg hc]

/-- The scan distributes over a brace-free preamble. -/
theorem substChars_append_no_lb (ns : Namespace) (dfR : Df → String)
    (pre l : List Char) (hpre : ∀ c ∈ pre, c ≠ lbrace) :
    substChars ns dfR (pre ++ l) = pre ++ substChars ns dfR l := by
  induction pre with
  | nil => simp
  | cons c p ih =>
    have hc : c ≠ lbrace := hpre c (by simp)
    have hp : ∀ x ∈ p, x ≠ lbrace := fun x hx => hpre x (by simp [hx])
    simp only [List.cons_append, substChars_cons_of_ne ns dfR c _ hc, ih hp]

/-- Splitting a word run followed by a non-word character. -/
theorem split_word (w : List Char) (c : Char) (r : List Char)
    (hw : ∀ x ∈ w, isWordChar x = true) (hc : isWordChar c = false) :
    (w ++ c :: r).takeWhile isWordChar = w ∧
      (w ++ c :: r).dropWhile isWordChar = c :: r := by
  induction w with
  | nil => simp [List.takeWhile_cons, List.dropWhile_cons, hc]
  | cons a t ih =>
    have ha : isWordChar a = true := hw a (by simp)
    have ht : ∀ x ∈ t, isWordChar x = true := fun x hx => hw x (by simp [hx])
    obtain ⟨h1, h2⟩ := ih ht
    simp [List.takeWhile_cons, List.dropWhile_cons, ha, h1, h2]

/-- Behaviour of the scan at a placeholder occurrence: the bound value's
rendering is emitted (and the replacement is not re-scanned), or the
literal match text is kept for an unbound name; the scan resumes after the
closing brace either way. -/
theorem substChars_match (ns : Namespace) (dfR : Df → String)
    (w rest : List Char) (hw : w ≠ []) (hall : ∀ x ∈ w, isWordChar x = true) :
    substChars ns dfR (lbrace :: (w ++ rbrace :: rest)) =
      (match ns (String.mk w) with
       | some v => (renderVal dfR v).data ++ substChars ns dfR rest
       | none => lbrace :: (w ++ rbrace :: substChars ns dfR rest)) := by
  have hrb : isWordChar rbrace = false := by decide
  obtain ⟨htw, hdw⟩ := split_word w rbrace rest hall hrb
  simp only [substChars, List.length_cons, substFuel, if_pos rfl, htw, hdw,
    if_neg hw]
  have hrest : rest.length ≤ (w ++ rbrace :: rest).length := by
    simp
    omega
  cases hns : ns (String.mk w) with
  | some v =>
    rw [substFuel_fuel_irrel ns dfR _ _ rest hrest (Nat.le_refl _)]
    simp
  | none =>
    rw [substFuel_fuel_irrel ns dfR _ _ rest hrest (Nat.le_refl _)]
    simp

/-- If no matched placeholder name is bound, the scan is the identity. -/
theorem substFuel_id_of_unbound (ns : Namespace) (dfR : Df → String) :
    ∀ fuel : Nat, ∀ l : List Char, l.length ≤ fuel →
      (∀ n ∈ matchedFuel fuel l, ns n = none) → substFuel ns dfR fuel l = l := by
  intro fuel
  induction fuel with
  | zero => intro l _ _; rfl
  | succ a ih =>
    intro l hlen hnone
    cases l with
    | nil => rfl
    | cons c cs =>
      simp only [List.length_cons, Nat.succ_le_succ_iff] at hlen
      have hdw : (cs.dropWhile isWordChar).length ≤ cs.length :=
        dropWhile_length_le isWordChar cs
      have hsplit : cs.takeWhile isWordChar ++ cs.dropWhile isWordChar = cs :=
        List.takeWhile_append_dropWhile isWordChar cs
      simp only [substFuel]
      by_cases hc : c = lbrace
      · simp only [if_pos hc]
        by_cases hwe : cs.takeWhile isWordChar = []
        · simp only [if_pos hwe]
          have hm : ∀ n ∈ matchedFuel a cs, ns n = none := by
            intro n hn
            apply hnone
            simp only [matchedFuel, if_pos hc, if_pos hwe]
            exact hn
          rw [ih cs hlen hm]
        · simp only [if_neg hwe]
          match hdrop : cs.dropWhile isWordChar with
          | [] =>
            rw [hdrop] at hsplit
            simp only [List.append_nil] at hsplit
            rw [hsplit]
          | r :: rest2 =>
            have hlen2 : rest2.length + 1 ≤ cs.length := by
              rw [hdrop] at hdw
              simpa using hdw
            by_cases hr : r = rbrace
            · simp only [if_pos hr]
              have hname : ns (String.mk (cs.takeWhile isWordChar)) = none := by
                apply hnone
                simp only [matchedFuel, if_pos hc, if_neg hwe, hdrop, if_pos hr]
                exact List.mem_cons_self _ _
              rw [hname]
              have hm : ∀ n ∈ matchedFuel a rest2, ns n = none := by
                intro n hn
                apply hnone
                simp only [matchedFuel, if_pos hc, if_neg hwe, hdrop, if_pos hr]
                exact List.mem_cons_of_mem _ hn
              rw [ih rest2 (by omega) hm]
              rw [hdrop] at hsplit
              rw [hsplit]
            · simp only [if_neg hr]
              have hm : ∀ n ∈ matchedFuel a (r :: rest2), ns n = none := by
                intro n hn
                apply hnone
                simp only [matchedFuel, if_pos hc, if_neg hwe, hdrop, if_neg hr]
                exact hn
              rw [ih (r :: rest2) (by simp; omega) hm]
              rw [hdrop] at hsplit
              rw [hsplit]
      · simp only [if_neg hc]
        have hm : ∀ n ∈ matchedFuel a cs, ns n = none := by
          intro n hn
          apply hnone
          simp only [matchedFuel, if_neg hc]
          exact hn
        rw [ih cs hlen hm]

/-- Two strings with the same character list are equal. -/
theorem string_eq_of_data (a b : String) (h : a.data = b.data) : a = b := by
  cases a
  cases b
  exact congrArg String.mk h

/-- `isIdent` unpacked. -/
theorem isIdent_iff (s : String) :
    isIdent s = true ↔ s.data ≠ [] ∧ ∀ x ∈ s.data, isWordChar x = true := by
  simp [isIdent, List.isEmpty_iff, List.all_eq_true]

/-- The scan of a brace-free preamble followed by a placeholder: the
common decomposition behind the substitution claims. -/
theorem substChars_decomp (ns : Namespace) (dfR : Df → String)
    (name pre suf : String) (hid : isIdent name = true)
    (hpre : ∀ c ∈ pre.data, c ≠ lbrace) :
    substChars ns dfR ((pre ++ placeholderStr name ++ suf).data)
      = pre.data ++
        (match ns name with
         | some v => (renderVal dfR v).data ++ substChars ns dfR suf.data
         | none => lbrace :: (name.data ++ rbrace :: substChars ns dfR suf.data)) := by
  obtain ⟨hne, hall⟩ := (isIdent_iff name).mp hid
  have hdata : (pre ++ placeholderStr name ++ suf).data
      = pre.data ++ (lbrace :: (name.data ++ rbrace :: suf.data)) := by
    simp [placeholderStr, String.data_append]
  rw [hdata,
    substChars_append_no_lb ns dfR pre.data _ hpre,
    substChars_match ns dfR name.data suf.data hne hall]

/-- C3: a placeholder whose identifier is bound in the namespace is
replaced: a textual value by the value single-quoted with every embedded
single quote doubled (`escSQuote`), a non-textual value by its plain
textual representation `str(val)` with no quotes added.  The placeholder
is quantified at an arbitrary occurrence after a brace-free preamble, and
the remainder of the query is scanned independently (replacements are not
re-scanned). -/
theorem C3_bound_placeholder_substitution (ns : Namespace) (dfR : Df → String)
    (name pre suf : String) (hid : isIdent name = true)
    (hpre : ∀ c ∈ pre.data, c ≠ lbrace) :
    (∀ s, ns name = some (.str s) →
      substitute_variables ns dfR (pre ++ placeholderStr name ++ suf)
        = pre ++ String.mk (squote :: (escSQuote s).data ++ [squote])
            ++ substitute_variables ns dfR suf) ∧
    (∀ v, ns name = some v → isTextual v = false →
      substitute_variables ns dfR (pre ++ placeholderStr name ++ suf)
        = pre ++ pyStr dfR v ++ substitute_variables ns dfR suf) := by
  have key := substChars_decomp ns dfR name pre suf hid hpre
  constructor
  · intro s hns
    rw [hns] at key
    apply string_eq_of_data
    rw [show (substitute_variables ns dfR (pre ++ placeholderStr name ++ suf)).data
          = substChars ns dfR (pre ++ placeholderStr name ++ suf).data from rfl, key]
    simp [substitute_variables, String.data_append, renderVal]
  · intro v hns htx
    rw [hns] at key
    apply string_eq_of_data
    rw [show (substitute_variables ns dfR (pre ++ placeholderStr name ++ suf)).data
          = substChars ns dfR (pre ++ placeholderStr name ++ suf).data from rfl, key]
    cases v with
    | str s => simp [isTextual] at htx
    | df d => simp [substitute_variables, String.data_append, renderVal, pyStr]
    | other rep => simp [substitute_variables, String.data_append, renderVal, pyStr]

/-- Witness for C3: the spec's own example — `"O'Brien"` bound to `name`
substitutes to `'O''Brien'` with the quote doubled, inside a larger
query. -/
theorem C3_witness :
    substitute_variables nsOBrien dfRW ("SELECT " ++ placeholderStr "name" ++ " FROM t")
      = "SELECT \x27O\x27\x27Brien\x27 FROM t" := by
  have h := (C3_bound_placeholder_substitution nsOBrien dfRW "name" "SELECT " " FROM t"
      (by decide) (by decide)).1 "O\x27Brien" (by decide)
  rw [h]
  decide

/-- C4: a placeholder whose identifier is absent from the namespace passes
through verbatim (no error is possible: the embedding of the substitution
is a total function), and a query none of whose matched placeholder names
is bound is returned unchanged. -/
theorem C4_unbound_placeholder_passthrough (ns : Namespace) (dfR : Df → String) :
    (∀ name pre suf : String, isIdent name = true →
      (∀ c ∈ pre.data, c ≠ lbrace) → ns name = none →
      substitute_variables ns dfR (pre ++ placeholderStr name ++ suf)
        = pre ++ placeholderStr name ++ substitute_variables ns dfR suf) ∧
    (∀ q : String, (∀ n ∈ matchedNames q.data, ns n = none) →
      substitute_variables ns dfR q = q) := by
  constructor
  · intro name pre suf hid hpre hns
    have key := substChars_decomp ns dfR name pre suf hid hpre
    rw [hns] at key
    apply string_eq_of_data
    rw [show (substitute_variables ns dfR (pre ++ placeholderStr name ++ suf)).data
          = substChars ns dfR (pre ++ placeholderStr name ++ suf).data from rfl, key]
    simp [substitute_variables, String.data_append, placeholderStr]
  · intro q hq
    apply string_eq_of_data
    simp only [substitute_variables]
    exact substFuel_id_of_unbound ns dfR q.data.length q.data (Nat.le_refl _) hq

/-- Witness for C4: an unresolved placeholder is preserved verbatim in a
query executed against the empty namespace. -/
theorem C4_witness :
    substitute_variables nsNone dfRW "SELECT \x7bmissing\x7d FROM t"
      = "SELECT \x7bmissing\x7d FROM t" :=
  (C4_unbound_placeholder_passthrough nsNone dfRW).2 _ (by decide)

/-- Counterexample to C5 as stated: `UPDATE t SET x=1` has no
`name = query` prefix (the text before its first equals sign is not a name
token), so under the claim the target should be the default `_df` with the
full line as the query, as the spec-side parse computes — but the code
splits at the first equals sign because the line contains one and does not
start with `SELECT`. -/
theorem C5_counterexample :
    parse_sql_line "UPDATE t SET x=1" = ("UPDATE t SET x", "1") ∧
    spec_parse_sql_line "UPDATE t SET x=1" = ("_df", "UPDATE t SET x=1") ∧
    parse_sql_line "UPDATE t SET x=1" ≠ spec_parse_sql_line "UPDATE t SET x=1" :=
  ⟨by decide, by decide, by decide⟩

/-- C5 amended: the explicit-name split applies exactly when the line
contains an equals sign and its stripped form does not start with `SELECT`
(case-sensitive); in that case the code takes the text before the first
equals sign as the name and the text after it as the query, both stripped,
even when that text is not a name token.  When the pre-equals text does
strip to a name token this agrees with the spec's `name = query` reading.
Lines without an equals sign, or starting with `SELECT`, get the default
name `_df` and the stripped full line. -/
theorem C5_line_parse_amended (line : String) :
    (pyContains line '=' = false ∨ pyStartsWith (pyStrip line) "SELECT" = true →
      parse_sql_line line = ("_df", pyStrip line)) ∧
    (pyContains line '=' = true → pyStartsWith (pyStrip line) "SELECT" = false →
      parse_sql_line line = (pyStrip (beforeEq line), pyStrip (afterEq line)) ∧
      (isIdent (pyStrip (beforeEq line)) = true →
        parse_sql_line line = spec_parse_sql_line line)) := by
  constructor
  · intro h
    unfold parse_sql_line
    rcases h with h | h
    · rw [h]
      simp
    · rw [h]
      simp
  · intro h1 h2
    constructor
    · unfold parse_sql_line
      rw [h1, h2]
      simp
    · intro hident
      unfold parse_sql_line spec_parse_sql_line
      rw [h1, h2, hident]
      simp

/-- Witness for C5 (amended): a well-formed `name = query` line is split
into the explicit name and the query, in agreement with the spec-side
parse. -/
theorem C5_witness :
    parse_sql_line "df = SELECT 1" = ("df", "SELECT 1") ∧
    parse_sql_line "df = SELECT 1" = spec_parse_sql_line "df = SELECT 1" := by
  have h := (C5_line_parse_amended "df = SELECT 1").2 (by decide) (by decide)
  refine ⟨?_, h.2 (by decide)⟩
  rw [h.1]
  decide

/-- Counterexample to C2 as stated: with the hostname resolved from the
environment as `envhost`, the path unresolved, and a well-formed config
file defining both fields, the loaded configuration carries the file's
hostname `filehost`: `config.update(file_config)` overwrites the
environment-resolved field, while the spec-side resolution keeps
`envhost`. -/
theorem C2_counterexample :
    (load_databricks_config envHostOnly fileBoth).lookup "server_hostname"
        = some "filehost" ∧
    (spec_resolve_config envHostOnly fileBoth).lookup "server_hostname"
        = some "envhost" ∧
    load_databricks_config envHostOnly fileBoth
        ≠ spec_resolve_config envHostOnly fileBoth :=
  ⟨by decide, by decide, by decide⟩

/-- C2 amended: environment-over-file priority holds only when every field
is resolved from the environment, in which case the config file is not
consulted at all.  As soon as any field is unresolved, the parsed config
file is merged with `dict.update`, so a field the file defines takes the
file's value — even if the environment also defined it — and only fields
absent from the file keep their environment values.  A missing, unreadable
or malformed file leaves the environment-resolved values in place. -/
theorem C2_config_resolution_amended (env : String → Option String)
    (es : List (String × String)) :
    ((envHostname env).isEmpty = false → (envPath env).isEmpty = false →
      ∀ file : ConfigFile, load_databricks_config env file
        = [("server_hostname", envHostname env), ("http_path", envPath env)]) ∧
    (((envHostname env).isEmpty = true ∨ (envPath env).isEmpty = true) →
      (load_databricks_config env (some (some es))).lookup "server_hostname"
          = some ((es.lookup "server_hostname").getD (envHostname env)) ∧
      (load_databricks_config env (some (some es))).lookup "http_path"
          = some ((es.lookup "http_path").getD (envPath env))) ∧
    (load_databricks_config env none
        = [("server_hostname", envHostname env), ("http_path", envPath env)] ∧
      load_databricks_config env (some none)
        = [("server_hostname", envHostname env), ("http_path", envPath env)]) := by
  refine ⟨?_, ?_, ?_, ?_⟩
  · intro h1 h2 file
    unfold load_databricks_config
    simp [h1, h2]
  · intro h
    unfold load_databricks_config
    have hcond : ([("server_hostname", envHostname env),
        ("http_path", envPath env)].all (fun kv => !kv.2.isEmpty)) = false := by
      rcases h with h | h <;> simp [h]
    simp only [hcond, Bool.false_eq_true, if_false]
    simp [dictUpdate, List.lookup]
  · unfold load_databricks_config
    by_cases hc : ([("server_hostname", envHostname env),
        ("http_path", envPath env)].all (fun kv => !kv.2.isEmpty)) = true
    · simp [hc]
    · simp only [hc, if_false]
      simp
  · unfold load_databricks_config
    by_cases hc : ([("server_hostname", envHostname env),
        ("http_path", envPath env)].all (fun kv => !kv.2.isEmpty)) = true
    · simp [hc]
    · simp only [hc, if_false]
      simp

/-- Witness for C2 (amended): with only the host in the environment and a
config file defining only the path, the hostname keeps its environment
value (absent from the file) while the path comes from the file. -/
theorem C2_witness :
    (load_databricks_config envHostOnly
        (some (some [("http_path", "filepath")]))).lookup "server_hostname"
        = some "envhost" ∧
    (load_databricks_config envHostOnly
        (some (some [("http_path", "filepath")]))).lookup "http_path"
        = some "filepath" := by
  have h := (C2_config_resolution_amended envHostOnly [("http_path", "filepath")]).2.1
    (by decide)
  refine ⟨?_, ?_⟩
  · rw [h.1]
    decide
  · rw [h.2]
    decide

/-- C6: with no cached execution channel and both endpoint fields
unconfigured, `connect` raises the configuration error for the missing
warehouse path, with the state unchanged.  The conclusion holds for every
behaviour of the external oracle `env` and does not mention it, so the
identity/credential provider is never invoked: no authentication can have
been attempted before the error (had the provider been consulted, an
oracle with a succeeding flow and one with a failing flow could not both
yield this same outcome and unchanged state, which still has no cached
client). -/
theorem C6_connect_unconfigured (env : ExtEnv) (s : AuthState)
    (hconn : s.sql_connection = none)
    (_hhost : optFalsy s.server_hostname = true)
    (hpath : optFalsy s.http_path = true) :
    connect env s = .error (.configError pathNotProvidedMsg, s) := by
  unfold connect
  rw [hconn]
  simp [hpath]

/-- Witness for C6: the fully unconfigured state, against an oracle whose
every flow would succeed. -/
theorem C6_witness :
    connect extOk authUnconfigured
      = .error (.configError pathNotProvidedMsg, authUnconfigured) :=
  C6_connect_unconfigured extOk authUnconfigured rfl rfl rfl

/-- C7: with a cached execution channel whose liveness probe succeeds,
`connect` returns that same channel handle and leaves the state unchanged
(no new channel is created); consequently a second `connect` on the
returned state yields the identical channel again. -/
theorem C7_connect_reuses_channel (env : ExtEnv) (s : AuthState) (conn : Nat)
    (hconn : s.sql_connection = some conn) (hprobe : env.probe conn = true) :
    connect env s = .ok (conn, s) ∧
    (∀ c2 s2, connect env s = .ok (c2, s2) → connect env s2 = .ok (c2, s2)) := by
  have h1 : connect env s = .ok (conn, s) := by
    unfold connect
    rw [hconn]
    simp [hprobe]
  refine ⟨h1, ?_⟩
  intro c2 s2 h2
  rw [h1] at h2
  simp only [Except.ok.injEq, Prod.mk.injEq] at h2
  obtain ⟨h3, h4⟩ := h2
  rw [← h3, ← h4]
  exact h1

/-- Witness for C7: the cached channel handle 5 is returned unchanged when
the probe succeeds. -/
theorem C7_witness : connect extOk authCached = .ok (5, authCached) :=
  (C7_connect_reuses_channel extOk authCached 5 rfl rfl).1

/-- C8: when the channel is obtained and the submit-and-fetch block fails
with message `m`, `execute_query` re-raises the wrapped failure whose
message is the wrapping text with the original cause's text `m` preserved,
and returns no result. -/
theorem C8_execute_query_wraps_failure (env : ExtEnv) (s s1 : AuthState)
    (conn : Nat) (q m : String)
    (hc : connect env s = .ok (conn, s1))
    (hq : env.runQuery conn q = .error m) :
    execute_query env s q
      = .error (.queryError ("Query execution failed: " ++ m), s1) := by
  unfold execute_query
  rw [hc]
  simp [hq]

/-- Witness for C8: a submission failing with `boom` surfaces as the
wrapped message with the cause preserved. -/
theorem C8_witness :
    execute_query extBoom authCached "SELECT 1"
      = .error (.queryError "Query execution failed: boom", authCached) :=
  C8_execute_query_wraps_failure extBoom authCached authCached 5 "SELECT 1" "boom"
    rfl rfl

/-- C9: `test_connection` is a total function of the state and the oracle
(the embedding returns a boolean on every path — it never raises), and it
returns true exactly when client acquisition succeeds and the identity
check on the obtained client succeeds; contrapositively, any failure of
authentication or of the identity check yields false. -/
theorem C9_test_connection_total (env : ExtEnv) (s : AuthState) :
    (test_connection env s).1 = true ↔
      (∃ c s1, get_workspace_client env s = .ok (c, s1) ∧
        ∃ u, env.meCheck c = .ok u) := by
  unfold test_connection
  cases hg : get_workspace_client env s with
  | error p =>
    obtain ⟨e, s1⟩ := p
    simp [hg]
  | ok p =>
    obtain ⟨c, s1⟩ := p
    cases hm : env.meCheck c with
    | ok u => simp [hg, hm]
    | error msg => simp [hg, hm]

/-- C1: for both command forms, when obtaining the connection manager
raises, or when `executeQuery` raises, the invocation still binds the
resolved target name — to the empty tabular result, which has zero rows —
so the name is never left unbound after a failing call. -/
theorem C1_failure_binds_empty (xenv : ExtEnv) (env : String → Option String)
    (dfR : Df → String) (ms : MagicState) (ns : Namespace) :
    (∀ varName cell e, get_auth env ms = .error e →
      (sql_cell xenv env dfR ms ns varName cell).2 varName
        = some (.df Df.empty)) ∧
    (∀ varName cell a ms1 f, get_auth env ms = .ok (a, ms1) →
      execute_query xenv a (substitute_variables ns dfR (pyStrip cell)) = .error f →
      (sql_cell xenv env dfR ms ns varName cell).2 varName
        = some (.df Df.empty)) ∧
    (∀ line e, get_auth env ms = .error e →
      (sql_line_cmd xenv env dfR ms ns line).2 (parse_sql_line line).1
        = some (.df Df.empty)) ∧
    (∀ line a ms1 f, get_auth env ms = .ok (a, ms1) →
      execute_query xenv a (substitute_variables ns dfR (parse_sql_line line).2)
          = .error f →
      (sql_line_cmd xenv env dfR ms ns line).2 (parse_sql_line line).1
        = some (.df Df.empty)) ∧
    Df.empty.rows.length = 0 := by
  refine ⟨?_, ?_, ?_, ?_, rfl⟩
  · intro varName cell e he
    unfold sql_cell
    rw [he]
    simp
  · intro varName cell a ms1 f hok hf
    obtain ⟨fe, fs⟩ := f
    unfold sql_cell
    simp [hok, hf]
  · intro line e he
    unfold sql_line_cmd
    rw [he]
    simp
  · intro line a ms1 f hok hf
    obtain ⟨fe, fs⟩ := f
    unfold sql_line_cmd
    simp [hok, hf]

/-- Witness for C1: with an empty configuration, obtaining the connection
manager raises, yet the target name is bound to the empty result. -/
theorem C1_witness :
    (sql_cell extOk envNone dfRW msNoConfig nsNone "out" "SELECT 1").2 "out"
      = some (.df Df.empty) :=
  (C1_failure_binds_empty extOk envNone dfRW msNoConfig nsNone).1 "out" "SELECT 1"
    (.configError configNotFoundMsg) rfl

/-- C10: frame property — the only namespace binding an invocation of
either command form creates or changes is the resolved target name: every
other name keeps its prior value on both the success and the failure path
(substitution only reads the namespace; the single write is the
`Function.update` at the target name). -/
theorem C10_frame (xenv : ExtEnv) (env : String → Option String)
    (dfR : Df → String) (ms : MagicState) (ns : Namespace) :
    (∀ varName cell x, x ≠ varName →
      (sql_cell xenv env dfR ms ns varName cell).2 x = ns x) ∧
    (∀ line x, x ≠ (parse_sql_line line).1 →
      (sql_line_cmd xenv env dfR ms ns line).2 x = ns x) := by
  constructor
  · intro varName cell x hx
    unfold sql_cell
    cases hg : get_auth env ms with
    | error e => simp [hg, Function.update_noteq hx]
    | ok p =>
      obtain ⟨a, ms1⟩ := p
      cases hq : execute_query xenv a (substitute_variables ns dfR (pyStrip cell)) with
      | ok q =>
        obtain ⟨d, a1⟩ := q
        simp [hg, hq, Function.update_noteq hx]
      | error q =>
        obtain ⟨fe, a1⟩ := q
        simp [hg, hq, Function.update_noteq hx]
  · intro line x hx
    unfold sql_line_cmd
    cases hg : get_auth env ms with
    | error e => simp [hg, Function.update_noteq hx]
    | ok p =>
      obtain ⟨a, ms1⟩ := p
      cases hq : execute_query xenv a (substitute_variables ns dfR (parse_sql_line line).2) with
      | ok q =>
        obtain ⟨d, a1⟩ := q
        simp [hg, hq, Function.update_noteq hx]
      | error q =>
        obtain ⟨fe, a1⟩ := q
        simp [hg, hq, Function.update_noteq hx]

/-- Witness for C10: an invocation targeting `out` leaves the binding of
`name` untouched. -/
theorem C10_witness :
    (sql_cell extOk envNone dfRW msNoConfig nsOBrien "out" "SELECT 1").2 "name"
      = nsOBrien "name" :=
  (C10_frame extOk envNone dfRW msNoConfig nsOBrien).1 "out" "SELECT 1" "name"
    (by decide)

end DbMagic
